import Mathlib

/-!
Shallow embedding of the prediction request pipeline of `src/api.py`
(FastAPI service for bank-note detection).

Floats of the source are modelled as rationals; the external inference
engine (`model.predict`) and the image decoder (`PIL.Image.open` +
`np.array`) are parameters of the pipeline, each returning `Except` to
model Python exceptions caught by the `try/except` block.  Python list
indexing (`class_names[class_ids[i]]`), including its negative-index
semantics and its `IndexError`, is modelled by `pyIndex`.
-/

set_option autoImplicit false

namespace Currency

/-- The fixed label set, `class_names` at src/api.py line 43. -/
def class_names : List String := ["100 tk", "1000 tk", "200 tk", "500 tk", "objects"]

/-- `BoundingBox` response model (src/api.py lines 47-52). -/
structure BoundingBox where
  x1 : ℚ
  y1 : ℚ
  x2 : ℚ
  y2 : ℚ
deriving Repr, DecidableEq

/-- `Detection` response model (src/api.py lines 55-59). -/
structure Detection where
  class_name : String
  confidence : ℚ
  bounding_box : BoundingBox
deriving Repr, DecidableEq

/-- `PredictionResponse` response model (src/api.py lines 62-67). -/
structure PredictionResponse where
  success : Bool
  num_detections : Nat
  detections : List Detection
  message : Option String
deriving Repr, DecidableEq

/-- One raw engine detection: box coordinates (`result.boxes.xyxy`),
score (`result.boxes.conf`) and integer class id (`result.boxes.cls`,
after `.astype(int)`), as read at src/api.py lines 182-184. -/
structure RawDetection where
  x1 : ℚ
  y1 : ℚ
  x2 : ℚ
  y2 : ℚ
  conf : ℚ
  cls : ℤ
deriving Repr, DecidableEq

/-- Outcome of one request to `/predict`: either a 200 with a
`PredictionResponse` body, or an `HTTPException` with a status code and
a detail string. -/
inductive HttpResult where
  | ok (response : PredictionResponse)
  | error (statusCode : Nat) (detail : String)
deriving Repr, DecidableEq

/-- Python list indexing `xs[i]`: a negative index counts from the end;
an index out of range raises `IndexError("list index out of range")`. -/
def pyIndex {α : Type} (xs : List α) (i : ℤ) : Except String α :=
  let j : ℤ := if i < 0 then (xs.length : ℤ) + i else i
  if h : 0 ≤ j ∧ j.toNat < xs.length then .ok (xs.get ⟨j.toNat, h.2⟩)
  else .error ("list index out of range")

/-- Python `s.startswith(p)`: `p` is a prefix of `s` (character-wise). -/
def strStartsWith (s p : String) : Bool := p.data.isPrefixOf s.data

/-- The content-type test of src/api.py line 148:
`not file.content_type or not file.content_type.startswith('image/')`
passes exactly when the content type is present and declares the image
media family (an absent or empty content type is falsy in Python, and
the empty string does not start with `image/` either). -/
def contentTypeOk (content_type : Option String) : Bool :=
  match content_type with
  | none => false
  | some ct => strStartsWith ct ("image/")

/-- The body of the loop at src/api.py lines 186-197: map one raw engine
detection to a `Detection`, looking the class id up in `class_names`
with Python indexing (which may raise). -/
def mapRaw (d : RawDetection) : Except String Detection :=
  (pyIndex class_names d.cls).map fun name =>
    { class_name := name
      confidence := d.conf
      bounding_box := { x1 := d.x1, y1 := d.y1, x2 := d.x2, y2 := d.y2 } }

/-- The extraction loop at src/api.py lines 186-197: builds the
`detections` list in engine order; a lookup failure aborts the whole
request (the `IndexError` propagates to the `except` block). -/
def buildDetections : List RawDetection → Except String (List Detection)
  | [] => .ok []
  | d :: rest =>
    match mapRaw d with
    | .error e => .error e
    | .ok det =>
      match buildDetections rest with
      | .error e => .error e
      | .ok dets => .ok (det :: dets)

/-- The guard `if result.boxes is not None and len(result.boxes) > 0:`
at src/api.py line 181: with absent boxes the loop is skipped and
`detections` stays empty (an empty box list also leaves it empty). -/
def rawsOf : Option (List RawDetection) → List RawDetection
  | none => []
  | some l => l

/-- The `predict` endpoint handler, src/api.py lines 125-212.

`model` is the module-level `model` global (`None` until `load_model`
succeeds); `decode` models `Image.open(io.BytesIO(contents))` followed
by `np.array` (raises on corrupt bytes); `infer` models
`model.predict(...)` followed by reading `results[0].boxes`, returning
`none` when `result.boxes is None` and the raw rows otherwise.  Any
`Except.error` inside the `try` block is caught by the
`except Exception` handler at lines 207-212 and mapped to HTTP 500 with
`"Error processing image: " ++ str(e)`. -/
def predict {Model Px : Type}
    (model : Option Model)
    (decode : List Nat → Except String Px)
    (infer : Model → Px → ℚ → Except String (Option (List RawDetection)))
    (content_type : Option String)
    (confidence : ℚ)
    (contents : List Nat) : HttpResult :=
  match model with
  | none => .error 503 ("Model not loaded. Please ensure model weights are available.")
  | some m =>
    if contentTypeOk content_type = false then
      .error 400 ("Invalid file type. Please upload an image file (JPEG/PNG)")
    else if ¬ (0 ≤ confidence ∧ confidence ≤ 1) then
      .error 400 ("Confidence threshold must be between 0.0 and 1.0")
    else
      match decode contents with
      | .error e => .error 500 ("Error processing image: " ++ e)
      | .ok px =>
        match infer m px confidence with
        | .error e => .error 500 ("Error processing image: " ++ e)
        | .ok boxes =>
          match buildDetections (rawsOf boxes) with
          | .error e => .error 500 ("Error processing image: " ++ e)
          | .ok dets =>
            .ok { success := true
                  num_detections := dets.length
                  detections := dets
                  message := some ("Detection completed successfully") }

/-- A trivially succeeding decoder, for concrete instantiations. -/
def unitDecode : List Nat → Except String Unit := fun _ => .ok ()

/-- An engine that always returns the given raw boxes, for concrete
instantiations. -/
def constInfer (raws : Option (List RawDetection)) :
    Unit → Unit → ℚ → Except String (Option (List RawDetection)) :=
  fun _ _ _ => .ok raws

/-- A decoder that always fails with the given message, for concrete
instantiations. -/
def failDecode (msg : String) : List Nat → Except String Unit := fun _ => .error msg

/-- An engine that always fails with the given message, for concrete
instantiations. -/
def failInfer (msg : String) :
    Unit → Unit → ℚ → Except String (Option (List RawDetection)) :=
  fun _ _ _ => .error msg

/-- The rational 1.0001, as an explicit fraction. -/
def ratAboveOne : ℚ := ⟨10001, 10000, by norm_num, by norm_num⟩

/-- The rational -0.0001, as an explicit fraction. -/
def ratBelowZero : ℚ := ⟨-1, 10000, by norm_num, by norm_num⟩

/-- Claim C1: with the model unset, `/predict` fails with 503 and the
model-not-loaded detail, for every decoder, engine, content type,
threshold and body — the check precedes input validation, body read and
engine invocation. -/
theorem C1_model_unset_503 {Model Px : Type}
    (decode : List Nat → Except String Px)
    (infer : Model → Px → ℚ → Except String (Option (List RawDetection)))
    (content_type : Option String) (confidence : ℚ) (contents : List Nat) :
    @predict Model Px none decode infer content_type confidence contents
      = .error 503 ("Model not loaded. Please ensure model weights are available.") := rfl

/-- Helper: the success path of `predict`, fully reduced from the
definitions, for the given intermediate results. -/
theorem predict_run {Model Px : Type} (m : Model)
    (decode : List Nat → Except String Px)
    (infer : Model → Px → ℚ → Except String (Option (List RawDetection)))
    (ct : Option String) (t : ℚ) (bs : List Nat) (px : Px)
    (raws : Option (List RawDetection)) (dets : List Detection)
    (hct : contentTypeOk ct = true) (ht : 0 ≤ t ∧ t ≤ 1)
    (hdec : decode bs = .ok px) (hinf : infer m px t = .ok raws)
    (hbuild : buildDetections (rawsOf raws) = .ok dets) :
    predict (some m) decode infer ct t bs
      = .ok { success := true
              num_detections := dets.length
              detections := dets
              message := some ("Detection completed successfully") } := by
  unfold predict
  simp only [hct, hdec, hinf, hbuild]
  rw [if_neg (by simp), if_neg (not_not_intro ht)]

/-- Helper: the error path of `predict` when the detection-building
loop raises (a class-id lookup failed). -/
theorem predict_run_err {Model Px : Type} (m : Model)
    (decode : List Nat → Except String Px)
    (infer : Model → Px → ℚ → Except String (Option (List RawDetection)))
    (ct : Option String) (t : ℚ) (bs : List Nat) (px : Px)
    (raws : Option (List RawDetection)) (e : String)
    (hct : contentTypeOk ct = true) (ht : 0 ≤ t ∧ t ≤ 1)
    (hdec : decode bs = .ok px) (hinf : infer m px t = .ok raws)
    (hbuild : buildDetections (rawsOf raws) = .error e) :
    predict (some m) decode infer ct t bs
      = .error 500 ("Error processing image: " ++ e) := by
  unfold predict
  simp only [hct, hdec, hinf, hbuild]
  rw [if_neg (by simp), if_neg (not_not_intro ht)]

/-- Helper: the error path of `predict` when the image bytes fail to
decode. -/
theorem predict_decode_err {Model Px : Type} (m : Model)
    (decode : List Nat → Except String Px)
    (infer : Model → Px → ℚ → Except String (Option (List RawDetection)))
    (ct : Option String) (t : ℚ) (bs : List Nat) (e : String)
    (hct : contentTypeOk ct = true) (ht : 0 ≤ t ∧ t ≤ 1)
    (hdec : decode bs = .error e) :
    predict (some m) decode infer ct t bs
      = .error 500 ("Error processing image: " ++ e) := by
  unfold predict
  simp only [hct, hdec]
  rw [if_neg (by simp), if_neg (not_not_intro ht)]

/-- Helper: the error path of `predict` when the engine call raises. -/
theorem predict_infer_err {Model Px : Type} (m : Model)
    (decode : List Nat → Except String Px)
    (infer : Model → Px → ℚ → Except String (Option (List RawDetection)))
    (ct : Option String) (t : ℚ) (bs : List Nat) (px : Px) (e : String)
    (hct : contentTypeOk ct = true) (ht : 0 ≤ t ∧ t ≤ 1)
    (hdec : decode bs = .ok px) (hinf : infer m px t = .error e) :
    predict (some m) decode infer ct t bs
      = .error 500 ("Error processing image: " ++ e) := by
  unfold predict
  simp only [hct, hdec, hinf]
  rw [if_neg (by simp), if_neg (not_not_intro ht)]

/-- Helper: Python indexing raises `IndexError` exactly outside
`[-len, len)`. -/
theorem pyIndex_length_oob {α : Type} (xs : List α) (i : ℤ)
    (h : (xs.length : ℤ) ≤ i ∨ i < -(xs.length : ℤ)) :
    pyIndex xs i = .error ("list index out of range") := by
  simp only [pyIndex]
  have hc : ¬ (0 ≤ (if i < 0 then (xs.length : ℤ) + i else i) ∧
      (if i < 0 then (xs.length : ℤ) + i else i).toNat < xs.length) := by
    split_ifs <;> omega
  rw [dif_neg hc]

/-- Helper: the extraction loop produces one record per raw engine
detection. -/
theorem buildDetections_length (raws : List RawDetection) (dets : List Detection)
    (h : buildDetections raws = .ok dets) : dets.length = raws.length := by
  induction raws generalizing dets with
  | nil =>
    unfold buildDetections at h
    cases h
    rfl
  | cons d rest ih =>
    unfold buildDetections at h
    cases hm : mapRaw d with
    | error e => rw [hm] at h; simp at h
    | ok det =>
      rw [hm] at h
      cases hb : buildDetections rest with
      | error e => rw [hb] at h; simp at h
      | ok ds =>
        rw [hb] at h
        cases h
        simp [ih ds hb]

/-- Helper: the extraction loop maps the i-th raw engine detection to
the i-th record, in order. -/
theorem buildDetections_get (raws : List RawDetection) (dets : List Detection)
    (h : buildDetections raws = .ok dets) :
    ∀ (i : ℕ) (h1 : i < raws.length) (h2 : i < dets.length),
      mapRaw (raws.get ⟨i, h1⟩) = .ok (dets.get ⟨i, h2⟩) := by
  induction raws generalizing dets with
  | nil => intro i h1 _; exact absurd h1 (by simp)
  | cons d rest ih =>
    intro i h1 h2
    unfold buildDetections at h
    cases hm : mapRaw d with
    | error e => rw [hm] at h; simp at h
    | ok det =>
      rw [hm] at h
      cases hb : buildDetections rest with
      | error e => rw [hb] at h; simp at h
      | ok ds =>
        rw [hb] at h
        cases h
        cases i with
        | zero => exact hm
        | succ n => exact ih ds hb n (Nat.lt_of_succ_lt_succ h1) (Nat.lt_of_succ_lt_succ h2)

/-- Helper: inversion of the success path — every 200 response has
`success = true`, `num_detections` equal to the length of `detections`,
and the fixed success message. -/
theorem predict_ok_inv {Model Px : Type} (model : Option Model)
    (decode : List Nat → Except String Px)
    (infer : Model → Px → ℚ → Except String (Option (List RawDetection)))
    (ct : Option String) (t : ℚ) (bs : List Nat) (r : PredictionResponse)
    (h : predict model decode infer ct t bs = .ok r) :
    r.success = true ∧ r.num_detections = r.detections.length ∧
      r.message = some ("Detection completed successfully") := by
  cases model with
  | none => simp [predict] at h
  | some m =>
    cases hct : contentTypeOk ct with
    | false => simp [predict, hct] at h
    | true =>
      by_cases ht : 0 ≤ t ∧ t ≤ 1
      · cases hdec : decode bs with
        | error e => simp [predict, hct, ht, hdec] at h
        | ok px =>
          cases hinf : infer m px t with
          | error e => simp [predict, hct, ht, hdec, hinf] at h
          | ok raws =>
            cases hbuild : buildDetections (rawsOf raws) with
            | error e =>
              rw [predict_run_err m decode infer ct t bs px raws e hct ht hdec hinf hbuild] at h
              simp at h
            | ok dets =>
              rw [predict_run m decode infer ct t bs px raws dets hct ht hdec hinf hbuild] at h
              cases h
              exact ⟨rfl, rfl, rfl⟩
      · simp [predict, hct, ht] at h

/-- Claim C2, counterexample: the engine class id `-1` is outside the
bounds `[0,5)` of the five-entry label set, yet the pipeline returns
HTTP 200 carrying the (wrong) label `objects` for that detection —
Python negative list indexing silently masks the engine-contract
violation instead of failing loudly. -/
theorem C2_counterexample :
    ¬ (0 ≤ (-1 : ℤ) ∧ (-1 : ℤ) < (class_names.length : ℤ)) ∧
    predict (some ()) unitDecode
        (constInfer (some [{ x1 := 0, y1 := 0, x2 := 1, y2 := 1, conf := 1, cls := -1 }]))
        (some ("image/png")) 1 []
      = .ok { success := true
              num_detections := 1
              detections := [{ class_name := "objects", confidence := 1
                               bounding_box := ⟨0, 0, 1, 1⟩ }]
              message := some ("Detection completed successfully") } :=
  ⟨by decide, by decide⟩

/-- Claim C2 (amended): an engine class id at or above 5, or below -5,
makes the request fail loudly — but as a generic HTTP 500
`Error processing image: list index out of range` (the `IndexError`
is swallowed by the catch-all handler), not a distinguished
ContractViolation; and an out-of-range class id in `[-5, -1]` does not
fail at all: Python negative indexing silently resolves it to one of
the five labels and the request succeeds with that wrong label. -/
theorem C2_amended_out_of_range {Model Px : Type} (m : Model)
    (decode : List Nat → Except String Px)
    (infer : Model → Px → ℚ → Except String (Option (List RawDetection)))
    (ct : Option String) (t : ℚ) (bs : List Nat) (px : Px) (d : RawDetection)
    (hct : contentTypeOk ct = true) (ht : 0 ≤ t ∧ t ≤ 1)
    (hdec : decode bs = .ok px) (hinf : infer m px t = .ok (some [d])) :
    (5 ≤ d.cls ∨ d.cls < -5 →
      predict (some m) decode infer ct t bs
        = .error 500 ("Error processing image: list index out of range")) ∧
    (-5 ≤ d.cls → d.cls < 0 → ∀ name : String,
      pyIndex class_names d.cls = .ok name →
      predict (some m) decode infer ct t bs
        = .ok { success := true
                num_detections := 1
                detections := [{ class_name := name, confidence := d.conf
                                 bounding_box := ⟨d.x1, d.y1, d.x2, d.y2⟩ }]
                message := some ("Detection completed successfully") }) := by
  constructor
  · intro hoob
    have hmap : mapRaw d = .error ("list index out of range") := by
      unfold mapRaw
      rw [pyIndex_length_oob class_names d.cls (by simpa [class_names] using hoob)]
      rfl
    have hbuild : buildDetections (rawsOf (some [d]))
        = .error ("list index out of range") := by
      simp [rawsOf, buildDetections, hmap]
    rw [predict_run_err m decode infer ct t bs px (some [d]) _ hct ht hdec hinf hbuild]
    decide
  · intro _ _ name hname
    have hmap : mapRaw d = .ok { class_name := name, confidence := d.conf
                                 bounding_box := ⟨d.x1, d.y1, d.x2, d.y2⟩ } := by
      unfold mapRaw
      rw [hname]
      rfl
    have hbuild : buildDetections (rawsOf (some [d]))
        = .ok [{ class_name := name, confidence := d.conf
                 bounding_box := ⟨d.x1, d.y1, d.x2, d.y2⟩ }] := by
      simp [rawsOf, buildDetections, hmap]
    exact predict_run m decode infer ct t bs px (some [d]) _ hct ht hdec hinf hbuild

/-- Witness for the amended C2: class id 7 yields the 500 error, class
id -2 silently yields the label `500 tk` (the fourth label). -/
theorem C2_amended_witness :
    predict (some ()) unitDecode
        (constInfer (some [{ x1 := 0, y1 := 0, x2 := 1, y2 := 1, conf := 1, cls := 7 }]))
        (some ("image/png")) 1 []
      = .error 500 ("Error processing image: list index out of range") ∧
    predict (some ()) unitDecode
        (constInfer (some [{ x1 := 0, y1 := 0, x2 := 1, y2 := 1, conf := 1, cls := -2 }]))
        (some ("image/png")) 1 []
      = .ok { success := true
              num_detections := 1
              detections := [{ class_name := "500 tk", confidence := 1
                               bounding_box := ⟨0, 0, 1, 1⟩ }]
              message := some ("Detection completed successfully") } :=
  ⟨(C2_amended_out_of_range () unitDecode
      (constInfer (some [{ x1 := 0, y1 := 0, x2 := 1, y2 := 1, conf := 1, cls := 7 }]))
      (some ("image/png")) 1 [] ()
      { x1 := 0, y1 := 0, x2 := 1, y2 := 1, conf := 1, cls := 7 }
      rfl (by decide) rfl rfl).1 (by decide),
   (C2_amended_out_of_range () unitDecode
      (constInfer (some [{ x1 := 0, y1 := 0, x2 := 1, y2 := 1, conf := 1, cls := -2 }]))
      (some ("image/png")) 1 [] ()
      { x1 := 0, y1 := 0, x2 := 1, y2 := 1, conf := 1, cls := -2 }
      rfl (by decide) rfl rfl).2 (by decide) (by decide) "500 tk" rfl⟩

/-- Claim C3: threshold validation is inclusive at both ends — with the
model loaded and a valid content type, every `t` with `0 ≤ t ≤ 1`
(including the endpoints) passes validation and the request never gets
a 400, while every `t` outside that range fails with 400 and the
out-of-range detail. -/
theorem C3_threshold_inclusive {Model Px : Type} (m : Model)
    (decode : List Nat → Except String Px)
    (infer : Model → Px → ℚ → Except String (Option (List RawDetection)))
    (ct : Option String) (t : ℚ) (bs : List Nat)
    (hct : contentTypeOk ct = true) :
    ((0 ≤ t ∧ t ≤ 1) → ∀ d : String,
      predict (some m) decode infer ct t bs ≠ .error 400 d) ∧
    (¬ (0 ≤ t ∧ t ≤ 1) →
      predict (some m) decode infer ct t bs
        = .error 400 ("Confidence threshold must be between 0.0 and 1.0")) := by
  constructor
  · intro ht d
    cases hdec : decode bs with
    | error e =>
      rw [predict_decode_err m decode infer ct t bs e hct ht hdec]
      simp
    | ok px =>
      cases hinf : infer m px t with
      | error e =>
        rw [predict_infer_err m decode infer ct t bs px e hct ht hdec hinf]
        simp
      | ok raws =>
        cases hbuild : buildDetections (rawsOf raws) with
        | error e =>
          rw [predict_run_err m decode infer ct t bs px raws e hct ht hdec hinf hbuild]
          simp
        | ok dets =>
          rw [predict_run m decode infer ct t bs px raws dets hct ht hdec hinf hbuild]
          simp
  · intro ht
    unfold predict
    simp only [hct]
    rw [if_neg (by simp), if_pos ht]

/-- Witness for C3: thresholds 0 and 1 are accepted; the thresholds
-0.0001 and 1.0001 are rejected with the 400 out-of-range detail. -/
theorem C3_witness :
    predict (some ()) unitDecode (constInfer none) (some ("image/png")) 0 []
      ≠ .error 400 ("Confidence threshold must be between 0.0 and 1.0") ∧
    predict (some ()) unitDecode (constInfer none) (some ("image/png")) 1 []
      ≠ .error 400 ("Confidence threshold must be between 0.0 and 1.0") ∧
    predict (some ()) unitDecode (constInfer none) (some ("image/png")) ratBelowZero []
      = .error 400 ("Confidence threshold must be between 0.0 and 1.0") ∧
    predict (some ()) unitDecode (constInfer none) (some ("image/png")) ratAboveOne []
      = .error 400 ("Confidence threshold must be between 0.0 and 1.0") :=
  ⟨(C3_threshold_inclusive () unitDecode (constInfer none) (some ("image/png")) 0 []
      rfl).1 (by decide) ("Confidence threshold must be between 0.0 and 1.0"),
   (C3_threshold_inclusive () unitDecode (constInfer none) (some ("image/png")) 1 []
      rfl).1 (by decide) ("Confidence threshold must be between 0.0 and 1.0"),
   (C3_threshold_inclusive () unitDecode (constInfer none) (some ("image/png")) ratBelowZero []
      rfl).2 (by decide),
   (C3_threshold_inclusive () unitDecode (constInfer none) (some ("image/png")) ratAboveOne []
      rfl).2 (by decide)⟩

/-- Claim C4: an absent content type, or one that does not declare the
image media family, fails with 400 and the invalid-file-type detail,
for every decoder and every engine — so the engine is never invoked on
such a request (the outcome does not depend on it). -/
theorem C4_content_type_rejected {Model Px : Type} (m : Model)
    (ct : Option String) (t : ℚ) (bs : List Nat)
    (h : contentTypeOk ct = false) :
    ∀ (decode : List Nat → Except String Px)
      (infer : Model → Px → ℚ → Except String (Option (List RawDetection))),
      predict (some m) decode infer ct t bs
        = .error 400 ("Invalid file type. Please upload an image file (JPEG/PNG)") := by
  intro decode infer
  simp [predict, h]

/-- Witness for C4: a `text/plain` upload is rejected with 400 even
though an engine that would find a detection is attached. -/
theorem C4_witness :
    predict (some ()) unitDecode
        (constInfer (some [{ x1 := 0, y1 := 0, x2 := 1, y2 := 1, conf := 1, cls := 0 }]))
        (some ("text/plain")) 1 []
      = .error 400 ("Invalid file type. Please upload an image file (JPEG/PNG)") :=
  C4_content_type_rejected () (some ("text/plain")) 1 [] rfl unitDecode
    (constInfer (some [{ x1 := 0, y1 := 0, x2 := 1, y2 := 1, conf := 1, cls := 0 }]))

/-- Claim C5: in every 200 response of the service, `num_detections`
equals the length of the `detections` sequence. -/
theorem C5_num_detections_eq_length {Model Px : Type} (model : Option Model)
    (decode : List Nat → Except String Px)
    (infer : Model → Px → ℚ → Except String (Option (List RawDetection)))
    (ct : Option String) (t : ℚ) (bs : List Nat) (r : PredictionResponse)
    (h : predict model decode infer ct t bs = .ok r) :
    r.num_detections = r.detections.length :=
  (predict_ok_inv model decode infer ct t bs r h).2.1

/-- Witness for C5: a concrete run with one detection. -/
theorem C5_witness :
    ({ success := true
       num_detections := 1
       detections := [{ class_name := "100 tk", confidence := 1
                        bounding_box := ⟨0, 0, 1, 1⟩ }]
       message := some ("Detection completed successfully") } : PredictionResponse).num_detections
      = ({ success := true
           num_detections := 1
           detections := [{ class_name := "100 tk", confidence := 1
                            bounding_box := ⟨0, 0, 1, 1⟩ }]
           message := some ("Detection completed successfully") } : PredictionResponse).detections.length :=
  C5_num_detections_eq_length (some ()) unitDecode
    (constInfer (some [{ x1 := 0, y1 := 0, x2 := 1, y2 := 1, conf := 1, cls := 0 }]))
    (some ("image/png")) 1 [] _ (by decide)

/-- Claim C6: a well-formed request whose inference yields no boxes (or
an empty box list) succeeds with `success = true`, `num_detections = 0`,
empty `detections` and the fixed success message — zero detections is
not an error. -/
theorem C6_zero_detections_ok {Model Px : Type} (m : Model)
    (decode : List Nat → Except String Px)
    (infer : Model → Px → ℚ → Except String (Option (List RawDetection)))
    (ct : Option String) (t : ℚ) (bs : List Nat) (px : Px)
    (raws : Option (List RawDetection))
    (hct : contentTypeOk ct = true) (ht : 0 ≤ t ∧ t ≤ 1)
    (hdec : decode bs = .ok px) (hinf : infer m px t = .ok raws)
    (hraws : raws = none ∨ raws = some []) :
    predict (some m) decode infer ct t bs
      = .ok { success := true
              num_detections := 0
              detections := []
              message := some ("Detection completed successfully") } := by
  have h0 : buildDetections (rawsOf raws) = .ok [] := by
    rcases hraws with h | h <;> subst h <;> rfl
  exact predict_run m decode infer ct t bs px raws [] hct ht hdec hinf h0

/-- Witness for C6: a concrete run with no boxes returned. -/
theorem C6_witness :
    predict (some ()) unitDecode (constInfer none) (some ("image/png")) 1 []
      = .ok { success := true
              num_detections := 0
              detections := []
              message := some ("Detection completed successfully") } :=
  C6_zero_detections_ok () unitDecode (constInfer none) (some ("image/png")) 1 [] () none
    rfl (by decide) rfl rfl (Or.inl rfl)

/-- Claim C7: when the engine returns raw detections and the mapping
loop succeeds, the response carries exactly those records in engine
order — there are as many records as raw detections and the i-th
record is the mapping of the i-th raw detection, with no reordering. -/
theorem C7_engine_order_preserved {Model Px : Type} (m : Model)
    (decode : List Nat → Except String Px)
    (infer : Model → Px → ℚ → Except String (Option (List RawDetection)))
    (ct : Option String) (t : ℚ) (bs : List Nat) (px : Px)
    (l : List RawDetection) (dets : List Detection)
    (hct : contentTypeOk ct = true) (ht : 0 ≤ t ∧ t ≤ 1)
    (hdec : decode bs = .ok px) (hinf : infer m px t = .ok (some l))
    (hbuild : buildDetections l = .ok dets) :
    predict (some m) decode infer ct t bs
      = .ok { success := true
              num_detections := dets.length
              detections := dets
              message := some ("Detection completed successfully") } ∧
    dets.length = l.length ∧
    ∀ (i : ℕ) (h1 : i < l.length) (h2 : i < dets.length),
      mapRaw (l.get ⟨i, h1⟩) = .ok (dets.get ⟨i, h2⟩) :=
  ⟨predict_run m decode infer ct t bs px (some l) dets hct ht hdec hinf hbuild,
   buildDetections_length l dets hbuild,
   buildDetections_get l dets hbuild⟩

/-- Witness for C7: two raw detections with ascending confidences come
back in engine order (a re-sort by confidence would have flipped
them). -/
theorem C7_witness :
    predict (some ()) unitDecode
        (constInfer (some
          [{ x1 := 0, y1 := 0, x2 := 1, y2 := 1, conf := 0, cls := 2 },
           { x1 := 2, y1 := 2, x2 := 3, y2 := 3, conf := 1, cls := 0 }]))
        (some ("image/png")) 1 []
      = .ok { success := true
              num_detections := 2
              detections := [{ class_name := "200 tk", confidence := 0
                               bounding_box := ⟨0, 0, 1, 1⟩ },
                             { class_name := "100 tk", confidence := 1
                               bounding_box := ⟨2, 2, 3, 3⟩ }]
              message := some ("Detection completed successfully") } :=
  (C7_engine_order_preserved () unitDecode
    (constInfer (some
      [{ x1 := 0, y1 := 0, x2 := 1, y2 := 1, conf := 0, cls := 2 },
       { x1 := 2, y1 := 2, x2 := 3, y2 := 3, conf := 1, cls := 0 }]))
    (some ("image/png")) 1 [] ()
    [{ x1 := 0, y1 := 0, x2 := 1, y2 := 1, conf := 0, cls := 2 },
     { x1 := 2, y1 := 2, x2 := 3, y2 := 3, conf := 1, cls := 0 }]
    [{ class_name := "200 tk", confidence := 0, bounding_box := ⟨0, 0, 1, 1⟩ },
     { class_name := "100 tk", confidence := 1, bounding_box := ⟨2, 2, 3, 3⟩ }]
    rfl (by decide) rfl rfl rfl).1

/-- Claim C8: with validations passed, a decode failure is terminal and
maps to HTTP 500 with the human-readable detail
`Error processing image: <cause>` — exactly the treatment an engine
failure gets; no partial result is returned. -/
theorem C8_decode_failure_500 {Model Px : Type} (m : Model)
    (decode : List Nat → Except String Px)
    (infer : Model → Px → ℚ → Except String (Option (List RawDetection)))
    (ct : Option String) (t : ℚ) (bs : List Nat) (msg : String)
    (hct : contentTypeOk ct = true) (ht : 0 ≤ t ∧ t ≤ 1) :
    (decode bs = .error msg →
      predict (some m) decode infer ct t bs
        = .error 500 ("Error processing image: " ++ msg)) ∧
    (∀ px : Px, decode bs = .ok px → infer m px t = .error msg →
      predict (some m) decode infer ct t bs
        = .error 500 ("Error processing image: " ++ msg)) :=
  ⟨fun hdec => predict_decode_err m decode infer ct t bs msg hct ht hdec,
   fun px hdec hinf => predict_infer_err m decode infer ct t bs px msg hct ht hdec hinf⟩

/-- Witness for C8: a failing decoder yields the 500 detail string, and
so does a failing engine. -/
theorem C8_witness :
    predict (some ()) (failDecode ("cannot identify image file")) (constInfer none)
        (some ("image/png")) 1 []
      = .error 500 ("Error processing image: cannot identify image file") ∧
    predict (some ()) unitDecode (failInfer ("inference error"))
        (some ("image/png")) 1 []
      = .error 500 ("Error processing image: inference error") :=
  ⟨(C8_decode_failure_500 () (failDecode ("cannot identify image file")) (constInfer none)
      (some ("image/png")) 1 [] ("cannot identify image file") rfl (by decide)).1 rfl,
   (C8_decode_failure_500 () unitDecode (failInfer ("inference error"))
      (some ("image/png")) 1 [] ("inference error") rfl (by decide)).2 () rfl rfl⟩

/-- Claim C9: the pipeline is deterministic — two calls with the same
image bytes and the same threshold against the same model, decoder and
engine produce identical detection sequences. -/
theorem C9_deterministic {Model Px : Type} (model : Option Model)
    (decode : List Nat → Except String Px)
    (infer : Model → Px → ℚ → Except String (Option (List RawDetection)))
    (ct : Option String) (t₁ t₂ : ℚ) (bs₁ bs₂ : List Nat)
    (r₁ r₂ : PredictionResponse)
    (hbs : bs₁ = bs₂) (ht : t₁ = t₂)
    (h₁ : predict model decode infer ct t₁ bs₁ = .ok r₁)
    (h₂ : predict model decode infer ct t₂ bs₂ = .ok r₂) :
    r₁.detections = r₂.detections := by
  subst hbs
  subst ht
  rw [h₁] at h₂
  cases h₂
  rfl

/-- Witness for C9: two identical concrete calls agree. -/
theorem C9_witness :
    ({ success := true
       num_detections := 0
       detections := []
       message := some ("Detection completed successfully") } : PredictionResponse).detections
      = ({ success := true
           num_detections := 0
           detections := []
           message := some ("Detection completed successfully") } : PredictionResponse).detections :=
  C9_deterministic (some ()) unitDecode (constInfer none) (some ("image/png")) 1 1 [] []
    _ _ rfl rfl (by decide) (by decide)

/-- Claim C10: every 200 response body has `success = true` — no
execution path returns a `PredictionResponse` with `success = false`. -/
theorem C10_success_always_true {Model Px : Type} (model : Option Model)
    (decode : List Nat → Except String Px)
    (infer : Model → Px → ℚ → Except String (Option (List RawDetection)))
    (ct : Option String) (t : ℚ) (bs : List Nat) (r : PredictionResponse)
    (h : predict model decode infer ct t bs = .ok r) :
    r.success = true :=
  (predict_ok_inv model decode infer ct t bs r h).1

/-- Witness for C10: a concrete 200 response has `success = true`. -/
theorem C10_witness :
    ({ success := true
       num_detections := 0
       detections := []
       message := some ("Detection completed successfully") } : PredictionResponse).success = true :=
  C10_success_always_true (some ()) unitDecode (constInfer none) (some ("image/png")) 1 []
    _ (by decide)

end Currency
